import Mathlib

/-!
Verification of the safety-gated operation controller of the
lovable-automation repository (src/safety.py, src/api.py, src/remix.py).

Shallow embedding conventions:
- instants (datetime.now and isoformat timestamps) are natural numbers of
  seconds; calendar dates (strftime of a day) are strings, as in the source;
- floating point delays and the one-decimal formatting of remaining minutes
  in console messages are modelled in whole seconds;
- Python dicts keyed by strings are association lists with insert-overwrite
  semantics; Python truthiness of optional strings (None and the empty
  string are falsy) is modelled explicitly;
- console printing and sleeping have no effect on the safety state, so the
  embedding drops the printing and returns sleep durations where needed;
- persistence (_save_state and _load_state) stores the SafetyState fields
  verbatim; functions that call _save_state are noted, and _check_daily_reset
  returns whether it saved.
-/

namespace Lovable

/-! ## Configuration constants (src/safety.py lines 29-45) -/

def MIN_REQUEST_INTERVAL_SECONDS : Nat := 2

def MAX_REQUESTS_PER_HOUR : Nat := 60

def MAX_CONSECUTIVE_FAILURES : Nat := 3

def CIRCUIT_BREAKER_RESET_MINUTES : Nat := 15

def MAX_RETRIES : Nat := 2

def RETRY_BACKOFF_BASE : Nat := 2

def RETRY_BACKOFF_MAX : Nat := 30

def MAX_OPERATIONS_PER_SESSION : Nat := 10

def MAX_REMIXES_PER_DAY : Nat := 20

/-! ## Python-semantics helpers -/

/-- Truthiness of a Python Optional[str]: None and the empty string are falsy. -/
def pyTruthy : Option String → Bool
  | none => false
  | some v => v ≠ ""

/-- Python `a or b` on optional strings: the first operand when truthy, else
the second. -/
def pyOr (a b : Option String) : Option String :=
  match a with
  | some v => if v ≠ "" then some v else b
  | none => b

/-- Lookup in a string-keyed Python dict modelled as an association list
(dict.get, returning None when the key is absent). -/
def dictGet (d : List (String × String)) (k : String) : Option String :=
  match d with
  | [] => none
  | (a, b) :: t => if a = k then some b else dictGet t k

/-- Insertion into a string-keyed Python dict: overwrite in place when the key
exists, else append. -/
def dictInsert (d : List (String × String)) (k v : String) : List (String × String) :=
  match d with
  | [] => [(k, v)]
  | (a, b) :: t => if a = k then (k, v) :: t else (a, b) :: dictInsert t k v

/-- Does the character list start with the given pattern? -/
def headMatch : List Char → List Char → Bool
  | [], _ => true
  | _ :: _, [] => false
  | a :: p, b :: s => a == b && headMatch p s

/-- Does the pattern occur as a contiguous sublist (Python substring `in`)? -/
def containsSub (sub : List Char) (s : List Char) : Bool :=
  match s with
  | [] => sub.isEmpty
  | _ :: t => headMatch sub s || containsSub sub t

/-- Python `sub in container` on strings. -/
def strContainsSub (container sub : String) : Bool :=
  containsSub sub.data container.data

/-- Python str.lower, restricted to the ASCII characters the source compares. -/
def strLower (s : String) : String := String.mk (s.data.map Char.toLower)

/-! ## Data classes (src/safety.py lines 52-80) -/

/-- RequestLog: log entry for a single request. -/
structure RequestLog where
  timestamp : Nat
  operation : String
  endpoint : String
  success : Bool
  error : Option String := none
  response_code : Option Nat := none
deriving DecidableEq

/-- SafetyState: persistent safety state across sessions. -/
structure SafetyState where
  requests_today : Nat := 0
  remixes_today : Nat := 0
  last_request_time : Option Nat := none
  consecutive_failures : Nat := 0
  circuit_breaker_until : Option Nat := none
  last_reset_date : String := ""
  request_log : List RequestLog := []
  remix_history : List (String × String) := []
deriving DecidableEq

/-! ## Persistence (src/safety.py lines 100-113): the artifact holds the
SafetyState fields verbatim; a missing artifact loads as the default state. -/

def save_state (s : SafetyState) : SafetyState := s

def load_state : Option SafetyState → SafetyState
  | some artifact => artifact
  | none => {}

/-! ## Reason strings returned by the checks. The source builds them with
f-strings; the numeric parts are rendered here from naturals (remaining
breaker cooldown and rate wait in whole seconds rather than the formatted
floats of the source). -/

def breaker_reason (remaining : Nat) : String :=
  "Circuit breaker active: " ++ (toString remaining ++ " seconds until reset")

def daily_reason : String :=
  "Daily remix limit reached (" ++ (toString MAX_REMIXES_PER_DAY ++ ")")

def already_reason (existing : String) : String :=
  "Already remixed: " ++ existing

def declined_reason : String := "User declined"

def rate_wait_reason (wait : Nat) : String :=
  "Rate limit: wait " ++ (toString wait ++ "s before next request")

def hourly_reason : String :=
  "Hourly limit reached (" ++ (toString MAX_REQUESTS_PER_HOUR ++ " requests)")

/-! ## SafetyManager checks (src/safety.py lines 115-216) -/

/-- SafetyManager._check_daily_reset: reset daily counters if it is a new day.
Returns the new state and whether _save_state was called. -/
def check_daily_reset (today : String) (s : SafetyState) : SafetyState × Bool :=
  if s.last_reset_date ≠ today then
    ({ s with requests_today := 0, remixes_today := 0,
              last_reset_date := today, request_log := [] }, true)
  else (s, false)

/-- SafetyManager.__init__: load the persisted state, then run the daily
reset check. -/
def safety_manager_init (today : String) (artifact : Option SafetyState) : SafetyState :=
  (check_daily_reset today (load_state artifact)).1

/-- SafetyManager._log_request truncation: append at the tail, and keep only
the last 100 entries when the length exceeds 100. -/
def log_append (log : List RequestLog) (entry : RequestLog) : List RequestLog :=
  let l := log ++ [entry]
  if 100 < l.length then l.drop (l.length - 100) else l

/-- SafetyManager._log_request: log a request for audit purposes (the
timestamp is the current instant), then persist. -/
def log_request (now : Nat) (operation endpoint : String) (success : Bool)
    (error : Option String) (response_code : Option Nat) (s : SafetyState) : SafetyState :=
  let entry : RequestLog :=
    { timestamp := now, operation := operation, endpoint := endpoint,
      success := success, error := error, response_code := response_code }
  { s with request_log := log_append s.request_log entry }

/-- SafetyManager.check_rate_limit: minimum interval since the last request,
then the hourly ceiling on requests_today. Never called by the rest of the
source; included because the hourly ceiling lives only here. -/
def check_rate_limit (now : Nat) (s : SafetyState) : Bool × String :=
  match s.last_request_time with
  | some last_time =>
      if now - last_time < MIN_REQUEST_INTERVAL_SECONDS then
        (false, rate_wait_reason (MIN_REQUEST_INTERVAL_SECONDS - (now - last_time)))
      else if MAX_REQUESTS_PER_HOUR ≤ s.requests_today then
        (false, hourly_reason)
      else (true, "")
  | none =>
      if MAX_REQUESTS_PER_HOUR ≤ s.requests_today then
        (false, hourly_reason)
      else (true, "")

/-- SafetyManager.wait_for_rate_limit: the seconds slept before the next
request; it never denies and never changes the state. -/
def wait_for_rate_limit (now : Nat) (s : SafetyState) : Nat :=
  match s.last_request_time with
  | some last_time =>
      if now - last_time < MIN_REQUEST_INTERVAL_SECONDS then
        MIN_REQUEST_INTERVAL_SECONDS - (now - last_time)
      else 0
  | none => 0

/-- SafetyManager.check_circuit_breaker: deny while the breaker is set and the
cooldown has not elapsed; on the first check at or past the cooldown, clear
the breaker, zero consecutive_failures and persist. -/
def check_circuit_breaker (now : Nat) (s : SafetyState) : (Bool × String) × SafetyState :=
  match s.circuit_breaker_until with
  | some reset_time =>
      if now < reset_time then
        ((false, breaker_reason (reset_time - now)), s)
      else
        ((true, ""), { s with circuit_breaker_until := none, consecutive_failures := 0 })
  | none => ((true, ""), s)

/-- SafetyManager.check_daily_limits: deny remix operations at the daily cap. -/
def check_daily_limits (operation : String) (s : SafetyState) : Bool × String :=
  if operation = "remix" ∧ MAX_REMIXES_PER_DAY ≤ s.remixes_today then
    (false, daily_reason)
  else (true, "")

/-- SafetyManager.check_idempotency: (is_new, existing_result_id); a remix key
present with a truthy stored value is not new. -/
def check_idempotency (operation : String) (project_id : String) (s : SafetyState) :
    Bool × Option String :=
  if operation = "remix" then
    match dictGet s.remix_history project_id with
    | some existing => if existing ≠ "" then (false, some existing) else (true, none)
    | none => (true, none)
  else (true, none)

/-! ## Pre-operation gate (src/safety.py lines 222-277) -/

/-- The confirmation step of pre_operation_check: a remix without the skip
flag prompts, and any answer whose lowercase form is neither yes nor y denies
with User declined. -/
def confirm_gate (operation : String) (skip_confirmation : Bool)
    (confirm_response : String) : Bool × String :=
  if operation = "remix" ∧ ¬ skip_confirmation then
    if strLower confirm_response = "yes" ∨ strLower confirm_response = "y" then (true, "")
    else (false, declined_reason)
  else (true, "")

/-- The checks of pre_operation_check after the circuit breaker: the
rate-limit wait (a sleep, no decision and no state change), the daily limits,
the idempotency check for remix operations with a truthy project id, the
soft warning at MAX_OPERATIONS_PER_SESSION (printing only, no decision), and
the confirmation prompt. None of these mutate the state. -/
def gate_after_breaker (operation : String) (project_id : Option String)
    (skip_confirmation : Bool) (confirm_response : String) (s : SafetyState) :
    Bool × String :=
  let dl := check_daily_limits operation s
  if dl.1 then
    let idem := check_idempotency operation (project_id.getD "") s
    if operation = "remix" ∧ pyTruthy project_id ∧ idem.1 = false then
      (false, already_reason (idem.2.getD ""))
    else
      confirm_gate operation skip_confirmation confirm_response
  else
    (false, dl.2)

/-- SafetyManager.pre_operation_check: the circuit breaker first (the only
state-mutating step), then the remaining checks in order, short-circuiting on
the first denial. -/
def pre_operation_check (now : Nat) (operation : String) (project_id : Option String)
    (skip_confirmation : Bool) (confirm_response : String) (s : SafetyState) :
    (Bool × String) × SafetyState :=
  let cb := check_circuit_breaker now s
  if cb.1.1 then
    (gate_after_breaker operation project_id skip_confirmation confirm_response cb.2, cb.2)
  else
    ((false, cb.1.2), cb.2)

/-! ## Post-operation handlers (src/safety.py lines 283-314) -/

/-- SafetyManager.record_request: count the request, stamp the time, apply the
success and failure rules to consecutive_failures, trip the breaker at the
threshold, log and persist. -/
def record_request (now : Nat) (operation endpoint : String) (success : Bool)
    (error : Option String) (response_code : Option Nat) (s : SafetyState) : SafetyState :=
  let s1 := { s with requests_today := s.requests_today + 1, last_request_time := some now }
  let s2 :=
    if success then { s1 with consecutive_failures := 0 }
    else
      let s1f := { s1 with consecutive_failures := s1.consecutive_failures + 1 }
      if MAX_CONSECUTIVE_FAILURES ≤ s1f.consecutive_failures then
        { s1f with circuit_breaker_until := some (now + CIRCUIT_BREAKER_RESET_MINUTES * 60) }
      else s1f
  log_request now operation endpoint success error response_code s2

/-- SafetyManager.record_remix_success: count the remix, record the mapping
for idempotency and persist. -/
def record_remix_success (source_project_id new_project_id : String)
    (s : SafetyState) : SafetyState :=
  { s with remixes_today := s.remixes_today + 1,
           remix_history := dictInsert s.remix_history source_project_id new_project_id }

/-! ## Retry policy (src/safety.py lines 330-346) -/

/-- SafetyManager.get_retry_delay: exponential backoff capped at the maximum
(the source computes in floats of seconds; exact on naturals). -/
def get_retry_delay (attempt : Nat) : Nat :=
  min (RETRY_BACKOFF_BASE ^ attempt) RETRY_BACKOFF_MAX

def no_retry_errors : List String := ["403", "401", "404", "already remixed", "supabase"]

/-- SafetyManager.should_retry: false once the attempt count reaches
MAX_RETRIES, and false when a truthy error text contains one of the
non-retryable markers (compared on the lowercased text). -/
def should_retry (attempt : Nat) (error : Option String) : Bool :=
  if MAX_RETRIES ≤ attempt then false
  else
    match error with
    | some e =>
        if e ≠ "" then
          if no_retry_errors.any (fun p => strContainsSub (strLower e) p) then false
          else true
        else true
    | none => true

/-! ## API client (src/api.py) -/

/-- An HTTP response as the client consumes it: the status code, the parsed
JSON body restricted to its string fields (an association list, as the client
only reads string fields by key), and the raw text. -/
structure HttpResponse where
  status_code : Nat
  body : List (String × String) := []
  text : String := ""
deriving DecidableEq

/-- What one physical transport attempt does: a response, or a raised
requests exception (timeout or request failure) with its message. -/
inductive TransportOutcome where
  | ok (r : HttpResponse)
  | exn (msg : String)
deriving DecidableEq

/-- dict.get on a parsed JSON body. -/
def body_get (body : List (String × String)) (k : String) : Option String :=
  dictGet body k

/-- RemixResult (src/api.py lines 24-32), without the raw response dict. -/
structure RemixResult where
  success : Bool
  project_id : Option String := none
  project_url : Option String := none
  error : Option String := none
  response_code : Option Nat := none
deriving DecidableEq

/-- Project (src/api.py lines 35-42). -/
structure Project where
  id : String
  name : String
  url : String
  created_at : Option String := none
  updated_at : Option String := none
deriving DecidableEq

/-- LovableAPI._request: wait for the rate limit (a sleep), issue the one
transport call, record the attempt (success exactly on status 200 or 201, the
exception message as the recorded error on a raise), and return the response
or propagate the exception. The third component counts transport calls
issued: always 1 here. -/
def api_request (now : Nat) (operation_name endpoint : String) (t : TransportOutcome)
    (s : SafetyState) : Except String HttpResponse × SafetyState × Nat :=
  match t with
  | TransportOutcome.ok r =>
      (Except.ok r,
       record_request now operation_name endpoint
         (r.status_code = 200 ∨ r.status_code = 201) none (some r.status_code) s, 1)
  | TransportOutcome.exn msg =>
      (Except.error msg,
       record_request now operation_name endpoint false (some msg) none s, 1)

/-- LovableAPI.remix_project: the pre-operation safety check, then on
approval one transport call; on status 200 or 201 the new project id is read
from the body (id, project_id or projectId, collapsed with Python or) and a
truthy id is recorded in the idempotency ledger; exceptions yield a failed
result. On denial the result reports the blocking reason and no transport
call is issued. -/
def remix_project (now : Nat) (project_id : String) (_include_history : Bool)
    (skip_confirmation : Bool) (confirm_response : String) (t : TransportOutcome)
    (s : SafetyState) : RemixResult × SafetyState × Nat :=
  let pc := pre_operation_check now "remix" (some project_id) skip_confirmation
      confirm_response s
  if pc.1.1 then
    match api_request now "remix" ("/projects/" ++ (project_id ++ "/remix")) t pc.2 with
    | (Except.ok r, s2, n) =>
        if r.status_code = 200 ∨ r.status_code = 201 then
          let new_project_id := pyOr (pyOr (body_get r.body "id") (body_get r.body "project_id"))
              (body_get r.body "projectId")
          let s3 := if pyTruthy new_project_id then
              record_remix_success project_id (new_project_id.getD "") s2
            else s2
          ({ success := true,
             project_id := new_project_id,
             project_url := if pyTruthy new_project_id then
                 some ("https://lovable.dev/projects/" ++ new_project_id.getD "") else none,
             response_code := some r.status_code }, s3, n)
        else
          ({ success := false,
             error := some ("Remix failed with status " ++ (toString r.status_code ++ (": " ++ r.text))),
             response_code := some r.status_code }, s2, n)
    | (Except.error msg, s2, n) =>
        ({ success := false, error := some ("Remix request failed: " ++ msg) }, s2, n)
  else
    ({ success := false, error := some ("Operation blocked: " ++ pc.1.2) }, pc.2, 0)

/-- LovableAPI.get_project: one transport call; a 200 response is read into a
Project (body fields with their source defaults), anything else, and any
exception, yields none. -/
def get_project (now : Nat) (project_id : String) (t : TransportOutcome)
    (s : SafetyState) : Option Project × SafetyState × Nat :=
  match api_request now "get_project" ("/projects/" ++ project_id) t s with
  | (Except.ok r, s1, n) =>
      if r.status_code = 200 then
        (some { id := (body_get r.body "id").getD project_id,
                name := (body_get r.body "name").getD "Unnamed",
                url := "https://lovable.dev/projects/" ++ project_id,
                created_at := pyOr (body_get r.body "created_at") (body_get r.body "createdAt"),
                updated_at := pyOr (body_get r.body "updated_at") (body_get r.body "updatedAt") },
         s1, n)
      else (none, s1, n)
  | (Except.error _, s1, n) => (none, s1, n)

/-! ## Remix workflow (src/remix.py) -/

/-- RemixWorkflowResult (src/remix.py lines 36-48). -/
structure RemixWorkflowResult where
  success : Bool
  source_project_id : String
  new_project_id : Option String := none
  new_project_url : Option String := none
  error : Option String := none
  timestamp : Nat := 0
deriving DecidableEq

/-- create_remix (src/remix.py lines 51-167): authenticate (outcome supplied
by the caller as an optional error), verify the source project with
get_project, then remix_project; a result whose error mentions Operation
blocked makes the workflow return none. The final component counts the
transport calls issued by the whole run. -/
def create_remix (now : Nat) (source_project_id : String) (include_history : Bool)
    (skip_confirmation : Bool) (confirm_response : String) (auth_error : Option String)
    (t_verify t_remix : TransportOutcome) (s : SafetyState) :
    Option RemixWorkflowResult × SafetyState × Nat :=
  match auth_error with
  | some err =>
      (some { success := false, source_project_id := source_project_id,
              error := some ("Authentication failed: " ++ err), timestamp := now }, s, 0)
  | none =>
      let gp := get_project now source_project_id t_verify s
      let rp := remix_project now source_project_id include_history skip_confirmation
          confirm_response t_remix gp.2.1
      let result := rp.1
      let calls := gp.2.2 + rp.2.2
      let blocked := match result.error with
        | some e => strContainsSub e "Operation blocked"
        | none => false
      if blocked then (none, rp.2.1, calls)
      else if result.success then
        (some { success := true, source_project_id := source_project_id,
                new_project_id := result.project_id,
                new_project_url := result.project_url, timestamp := now }, rp.2.1, calls)
      else
        (some { success := false, source_project_id := source_project_id,
                error := result.error, timestamp := now }, rp.2.1, calls)

/-! ## Proof infrastructure: strings -/

/-- Two strings with different first characters differ. -/
theorem str_head_ne (x y : String) (h : x.data.head? ≠ y.data.head?) : x ≠ y :=
  fun e => h (congrArg (fun z => z.data.head?) e)

/-- The first character of an append is the first character of a nonempty
left part. -/
theorem head_data_append (s t : String) (h : s.data ≠ []) :
    (s ++ t).data.head? = s.data.head? := by
  rw [String.data_append]
  cases hs : s.data with
  | nil => exact absurd hs h
  | cons a l => rfl

theorem breaker_head (d : Nat) : (breaker_reason d).data.head? = some 'C' := by
  unfold breaker_reason
  rw [head_data_append "Circuit breaker active: " _ (by decide)]
  rfl

theorem already_head (v : String) : (already_reason v).data.head? = some 'A' := by
  unfold already_reason
  rw [head_data_append "Already remixed: " _ (by decide)]
  rfl

theorem rate_head (w : Nat) : (rate_wait_reason w).data.head? = some 'R' := by
  unfold rate_wait_reason
  rw [head_data_append "Rate limit: wait " _ (by decide)]
  rfl

theorem daily_head : daily_reason.data.head? = some 'D' := by decide

theorem hourly_head : hourly_reason.data.head? = some 'H' := by decide

theorem empty_ne_rate (w : Nat) : ("" : String) ≠ rate_wait_reason w := by
  apply str_head_ne
  rw [rate_head]
  decide

theorem empty_ne_hourly : ("" : String) ≠ hourly_reason := by decide

theorem empty_ne_daily : ("" : String) ≠ daily_reason := by decide

theorem breaker_ne_rate (d w : Nat) : breaker_reason d ≠ rate_wait_reason w := by
  apply str_head_ne
  rw [breaker_head, rate_head]
  decide

theorem breaker_ne_hourly (d : Nat) : breaker_reason d ≠ hourly_reason := by
  apply str_head_ne
  rw [breaker_head, hourly_head]
  decide

theorem breaker_ne_daily (d : Nat) : breaker_reason d ≠ daily_reason := by
  apply str_head_ne
  rw [breaker_head, daily_head]
  decide

theorem daily_ne_rate (w : Nat) : daily_reason ≠ rate_wait_reason w := by
  apply str_head_ne
  rw [daily_head, rate_head]
  decide

theorem daily_ne_hourly : daily_reason ≠ hourly_reason := by decide

theorem already_ne_rate (v : String) (w : Nat) : already_reason v ≠ rate_wait_reason w := by
  apply str_head_ne
  rw [already_head, rate_head]
  decide

theorem already_ne_hourly (v : String) : already_reason v ≠ hourly_reason := by
  apply str_head_ne
  rw [already_head, hourly_head]
  decide

theorem already_ne_daily (v : String) : already_reason v ≠ daily_reason := by
  apply str_head_ne
  rw [already_head, daily_head]
  decide

theorem declined_ne_rate (w : Nat) : declined_reason ≠ rate_wait_reason w := by
  apply str_head_ne
  rw [rate_head]
  decide

theorem declined_ne_hourly : declined_reason ≠ hourly_reason := by decide

theorem declined_ne_daily : declined_reason ≠ daily_reason := by decide

/-- headMatch finds a pattern at the start of itself plus anything. -/
theorem headMatch_self_append (p r : List Char) : headMatch p (p ++ r) = true := by
  induction p with
  | nil => rfl
  | cons a t ih => simp [headMatch, ih]

theorem headMatch_self_append_cons (a : Char) (t r : List Char) :
    headMatch (a :: t) (a :: (t ++ r)) = true := headMatch_self_append (a :: t) r

/-- containsSub finds a pattern that starts the list. -/
theorem containsSub_self_append (p r : List Char) : containsSub p (p ++ r) = true := by
  cases p with
  | nil =>
      cases r with
      | nil => rfl
      | cons c t => rfl
  | cons a t => simp [containsSub, headMatch_self_append_cons]

/-- A string contains its own prefix (Python substring check). -/
theorem strContainsSub_prefix_append (a b : String) : strContainsSub (a ++ b) a = true := by
  unfold strContainsSub
  rw [String.data_append]
  exact containsSub_self_append a.data b.data

/-! ## Proof infrastructure: dictionaries -/

theorem dictGet_dictInsert (d : List (String × String)) (k v : String) :
    dictGet (dictInsert d k v) k = some v := by
  induction d with
  | nil => simp [dictInsert, dictGet]
  | cons p t ih =>
      obtain ⟨a, b⟩ := p
      by_cases h : a = k
      · simp [dictInsert, dictGet, h]
      · simp [dictInsert, dictGet, h, ih]

/-! ## Proof infrastructure: the circuit breaker and the gate -/

theorem cb_none (now : Nat) (s : SafetyState) (h : s.circuit_breaker_until = none) :
    check_circuit_breaker now s = ((true, ""), s) := by
  simp [check_circuit_breaker, h]

theorem cb_active (now t : Nat) (s : SafetyState) (h : s.circuit_breaker_until = some t)
    (h2 : now < t) :
    check_circuit_breaker now s = ((false, breaker_reason (t - now)), s) := by
  simp [check_circuit_breaker, h, h2]

theorem cb_expired (now t : Nat) (s : SafetyState) (h : s.circuit_breaker_until = some t)
    (h2 : t ≤ now) :
    check_circuit_breaker now s =
      ((true, ""), { s with circuit_breaker_until := none, consecutive_failures := 0 }) := by
  simp [check_circuit_breaker, h, Nat.not_lt.mpr h2]

/-- The breaker check touches only the breaker fields. -/
theorem cb_post_fields (now : Nat) (s : SafetyState) :
    (check_circuit_breaker now s).2.remixes_today = s.remixes_today ∧
    (check_circuit_breaker now s).2.remix_history = s.remix_history ∧
    (check_circuit_breaker now s).2.requests_today = s.requests_today ∧
    (check_circuit_breaker now s).2.request_log = s.request_log ∧
    (check_circuit_breaker now s).2.last_reset_date = s.last_reset_date ∧
    (check_circuit_breaker now s).2.last_request_time = s.last_request_time := by
  unfold check_circuit_breaker
  cases s.circuit_breaker_until with
  | none => simp
  | some t => by_cases h : now < t <;> simp [h]

theorem pre_check_cb_none (now : Nat) (op : String) (pid : Option String) (skip : Bool)
    (conf : String) (s : SafetyState) (h : s.circuit_breaker_until = none) :
    pre_operation_check now op pid skip conf s =
      (gate_after_breaker op pid skip conf s, s) := by
  simp [pre_operation_check, check_circuit_breaker, h]

theorem pre_check_cb_active (now t : Nat) (op : String) (pid : Option String) (skip : Bool)
    (conf : String) (s : SafetyState) (h : s.circuit_breaker_until = some t)
    (h2 : now < t) :
    pre_operation_check now op pid skip conf s = ((false, breaker_reason (t - now)), s) := by
  simp [pre_operation_check, check_circuit_breaker, h, h2]

theorem pre_check_cb_expired (now t : Nat) (op : String) (pid : Option String) (skip : Bool)
    (conf : String) (s : SafetyState) (h : s.circuit_breaker_until = some t)
    (h2 : t ≤ now) :
    pre_operation_check now op pid skip conf s =
      (gate_after_breaker op pid skip conf
        { s with circuit_breaker_until := none, consecutive_failures := 0 },
       { s with circuit_breaker_until := none, consecutive_failures := 0 }) := by
  simp [pre_operation_check, check_circuit_breaker, h, Nat.not_lt.mpr h2]

/-- The gate state result is always the breaker check state result. -/
theorem pre_check_state (now : Nat) (op : String) (pid : Option String) (skip : Bool)
    (conf : String) (s : SafetyState) :
    (pre_operation_check now op pid skip conf s).2 = (check_circuit_breaker now s).2 := by
  by_cases h : (check_circuit_breaker now s).1.1 = true
  · simp [pre_operation_check, h]
  · simp [pre_operation_check, h]

theorem gab_daily (op : String) (pid : Option String) (skip : Bool) (conf : String)
    (s : SafetyState) (hop : op = "remix") (h : MAX_REMIXES_PER_DAY ≤ s.remixes_today) :
    gate_after_breaker op pid skip conf s = (false, daily_reason) := by
  simp [gate_after_breaker, check_daily_limits, hop, h]

theorem gab_already (pid v : String) (skip : Bool) (conf : String) (s : SafetyState)
    (h20 : ¬ MAX_REMIXES_PER_DAY ≤ s.remixes_today)
    (hget : dictGet s.remix_history pid = some v) (hv : v ≠ "") (hpid : pid ≠ "") :
    gate_after_breaker "remix" (some pid) skip conf s = (false, already_reason v) := by
  simp [gate_after_breaker, check_daily_limits, check_idempotency, pyTruthy, h20,
        hget, hv, hpid]

theorem gab_confirm (op : String) (pid : Option String) (skip : Bool) (conf : String)
    (s : SafetyState) (hdl : ¬ (op = "remix" ∧ MAX_REMIXES_PER_DAY ≤ s.remixes_today))
    (hid : ¬ (op = "remix" ∧ pyTruthy pid = true ∧
        (check_idempotency op (pid.getD "") s).1 = false)) :
    gate_after_breaker op pid skip conf s = confirm_gate op skip conf := by
  simp only [gate_after_breaker, check_daily_limits]
  rw [if_neg hdl]
  simp only [if_true]
  rw [if_neg]
  intro hc
  exact hid ⟨hc.1, hc.2.1, hc.2.2⟩

theorem cg_skip (op : String) (conf : String) : confirm_gate op true conf = (true, "") := by
  simp [confirm_gate]

theorem cg_declined (conf : String) (h1 : strLower conf ≠ "yes") (h2 : strLower conf ≠ "y") :
    confirm_gate "remix" false conf = (false, declined_reason) := by
  simp [confirm_gate, h1, h2]

theorem cg_yes (conf : String) (h : strLower conf = "yes" ∨ strLower conf = "y") :
    confirm_gate "remix" false conf = (true, "") := by
  simp [confirm_gate, h]

/-- The gate decision after the breaker depends only on remixes_today and
remix_history. -/
theorem gab_congr (op : String) (pid : Option String) (skip : Bool) (conf : String)
    (s1 s2 : SafetyState) (hr : s1.remixes_today = s2.remixes_today)
    (hh : s1.remix_history = s2.remix_history) :
    gate_after_breaker op pid skip conf s1 = gate_after_breaker op pid skip conf s2 := by
  simp only [gate_after_breaker, check_daily_limits, check_idempotency, hr, hh]

/-- The gate decision depends only on the breaker field, remixes_today and
remix_history of the state. -/
theorem pre_check_decision_congr (now : Nat) (op : String) (pid : Option String)
    (skip : Bool) (conf : String) (s1 s2 : SafetyState)
    (hb : s1.circuit_breaker_until = s2.circuit_breaker_until)
    (hr : s1.remixes_today = s2.remixes_today)
    (hh : s1.remix_history = s2.remix_history) :
    (pre_operation_check now op pid skip conf s1).1 =
      (pre_operation_check now op pid skip conf s2).1 := by
  cases hc : s2.circuit_breaker_until with
  | none =>
      rw [pre_check_cb_none now op pid skip conf s1 (hb.trans hc),
          pre_check_cb_none now op pid skip conf s2 hc]
      exact gab_congr op pid skip conf s1 s2 hr hh
  | some t =>
      by_cases hlt : now < t
      · rw [pre_check_cb_active now t op pid skip conf s1 (hb.trans hc) hlt,
            pre_check_cb_active now t op pid skip conf s2 hc hlt]
      · have hle : t ≤ now := Nat.le_of_not_lt hlt
        rw [pre_check_cb_expired now t op pid skip conf s1 (hb.trans hc) hle,
            pre_check_cb_expired now t op pid skip conf s2 hc hle]
        exact gab_congr op pid skip conf _ _ (by simpa using hr) (by simpa using hh)

/-- Every denial reason the gate can produce. -/
theorem gab_reason_cases (op : String) (pid : Option String) (skip : Bool) (conf : String)
    (s : SafetyState) :
    (gate_after_breaker op pid skip conf s).2 = "" ∨
    (gate_after_breaker op pid skip conf s).2 = daily_reason ∨
    (∃ v, (gate_after_breaker op pid skip conf s).2 = already_reason v) ∨
    (gate_after_breaker op pid skip conf s).2 = declined_reason := by
  by_cases h1 : op = "remix" ∧ MAX_REMIXES_PER_DAY ≤ s.remixes_today
  · right; left
    simp [gate_after_breaker, check_daily_limits, h1]
  · by_cases h2 : op = "remix" ∧ pyTruthy pid = true ∧
        (check_idempotency op (pid.getD "") s).1 = false
    · right; right; left
      refine ⟨(check_idempotency op (pid.getD "") s).2.getD "", ?_⟩
      rw [gab_congr op pid skip conf s s rfl rfl]
      simp only [gate_after_breaker, check_daily_limits]
      rw [if_neg h1]
      simp only [if_true]
      rw [if_pos h2]
    · rw [gab_confirm op pid skip conf s h1 h2]
      unfold confirm_gate
      by_cases h3 : op = "remix" ∧ ¬ skip = true
      · rw [if_pos h3]
        by_cases h4 : strLower conf = "yes" ∨ strLower conf = "y"
        · left; rw [if_pos h4]
        · right; right; right
          rw [if_neg h4]
      · left; rw [if_neg h3]

/-- Every reason the full pre-operation gate can produce. -/
theorem gate_reason_cases (now : Nat) (op : String) (pid : Option String) (skip : Bool)
    (conf : String) (s : SafetyState) :
    (pre_operation_check now op pid skip conf s).1.2 = "" ∨
    (∃ d, (pre_operation_check now op pid skip conf s).1.2 = breaker_reason d) ∨
    (pre_operation_check now op pid skip conf s).1.2 = daily_reason ∨
    (∃ v, (pre_operation_check now op pid skip conf s).1.2 = already_reason v) ∨
    (pre_operation_check now op pid skip conf s).1.2 = declined_reason := by
  cases hc : s.circuit_breaker_until with
  | none =>
      rw [pre_check_cb_none now op pid skip conf s hc]
      rcases gab_reason_cases op pid skip conf s with h | h | ⟨v, h⟩ | h
      · exact Or.inl h
      · exact Or.inr (Or.inr (Or.inl h))
      · exact Or.inr (Or.inr (Or.inr (Or.inl ⟨v, h⟩)))
      · exact Or.inr (Or.inr (Or.inr (Or.inr h)))
  | some t =>
      by_cases hlt : now < t
      · rw [pre_check_cb_active now t op pid skip conf s hc hlt]
        exact Or.inr (Or.inl ⟨t - now, rfl⟩)
      · rw [pre_check_cb_expired now t op pid skip conf s hc (Nat.le_of_not_lt hlt)]
        rcases gab_reason_cases op pid skip conf
            { s with circuit_breaker_until := none, consecutive_failures := 0 } with
          h | h | ⟨v, h⟩ | h
        · exact Or.inl h
        · exact Or.inr (Or.inr (Or.inl h))
        · exact Or.inr (Or.inr (Or.inr (Or.inl ⟨v, h⟩)))
        · exact Or.inr (Or.inr (Or.inr (Or.inr h)))

/-! ## Proof infrastructure: the bounded audit log -/

/-- The last n elements of a list. -/
def lastN {α : Type} (n : Nat) (l : List α) : List α := l.drop (l.length - n)

theorem log_append_eq_lastN (l : List RequestLog) (e : RequestLog) :
    log_append l e = lastN 100 (l ++ [e]) := by
  show (if 100 < (l ++ [e]).length then (l ++ [e]).drop ((l ++ [e]).length - 100)
        else l ++ [e]) = lastN 100 (l ++ [e])
  unfold lastN
  by_cases h : 100 < (l ++ [e]).length
  · rw [if_pos h]
  · rw [if_neg h, Nat.sub_eq_zero_of_le (Nat.le_of_not_lt h), List.drop_zero]

theorem lastN_append_lastN {α : Type} (n : Nat) (a b : List α) :
    lastN n (lastN n a ++ b) = lastN n (a ++ b) := by
  unfold lastN
  rcases Nat.le_total a.length n with h | h
  · rw [Nat.sub_eq_zero_of_le h, List.drop_zero]
  · have e1 : (a.drop (a.length - n) ++ b).length - n = b.length := by
      rw [List.length_append, List.length_drop]
      omega
    have e2 : (a ++ b).length - n = (a.length - n) + b.length := by
      rw [List.length_append]
      omega
    rw [e1, e2, ← List.drop_drop,
        List.drop_append_of_le_length (Nat.sub_le a.length n)]

theorem foldl_log_append (es : List RequestLog) (l : List RequestLog) (e : RequestLog) :
    List.foldl log_append l (e :: es) = lastN 100 (l ++ e :: es) := by
  induction es generalizing l e with
  | nil => simpa using log_append_eq_lastN l e
  | cons e2 es ih =>
      rw [List.foldl_cons, ih (log_append l e) e2, log_append_eq_lastN l e,
          lastN_append_lastN]
      simp

/-! ## Claim C1 -/

/-- Claim C1: circuit breaker lifecycle. A recorded failure that raises
consecutive_failures to at least MAX_CONSECUTIVE_FAILURES sets
circuit_breaker_until to now plus 15 minutes; with the breaker set and now
earlier than it, check_circuit_breaker and pre_operation_check deny; the
first check at or past the deadline allows, clears the breaker and zeroes
consecutive_failures; and a recorded success zeroes consecutive_failures in
every state. -/
theorem claim1_circuit_breaker_lifecycle :
    (∀ (now : Nat) (op ep : String) (err : Option String) (rc : Option Nat)
        (s : SafetyState), MAX_CONSECUTIVE_FAILURES ≤ s.consecutive_failures + 1 →
        (record_request now op ep false err rc s).circuit_breaker_until =
          some (now + CIRCUIT_BREAKER_RESET_MINUTES * 60) ∧
        (record_request now op ep false err rc s).consecutive_failures =
          s.consecutive_failures + 1) ∧
    (∀ (now t : Nat) (s : SafetyState), s.circuit_breaker_until = some t → now < t →
        (check_circuit_breaker now s).1.1 = false ∧
        ∀ (op : String) (pid : Option String) (skip : Bool) (conf : String),
          (pre_operation_check now op pid skip conf s).1 =
            (false, breaker_reason (t - now))) ∧
    (∀ (now t : Nat) (s : SafetyState), s.circuit_breaker_until = some t → t ≤ now →
        check_circuit_breaker now s =
          ((true, ""), { s with circuit_breaker_until := none,
                                consecutive_failures := 0 })) ∧
    (∀ (now : Nat) (op ep : String) (err : Option String) (rc : Option Nat)
        (s : SafetyState),
        (record_request now op ep true err rc s).consecutive_failures = 0) := by
  refine ⟨?_, ?_, ?_, ?_⟩
  · intro now op ep err rc s h
    constructor <;> simp [record_request, log_request, h]
  · intro now t s h h2
    refine ⟨by rw [cb_active now t s h h2], ?_⟩
    intro op pid skip conf
    rw [pre_check_cb_active now t op pid skip conf s h h2]
  · intro now t s h h2
    exact cb_expired now t s h h2
  · intro now op ep err rc s
    simp [record_request, log_request]

def w1state : SafetyState := { consecutive_failures := 2, circuit_breaker_until := none }

theorem claim1_witness :
    (record_request 100 "remix" "/remix" false (some "boom") none w1state).circuit_breaker_until =
      some (100 + CIRCUIT_BREAKER_RESET_MINUTES * 60) ∧
    (record_request 100 "remix" "/remix" false (some "boom") none w1state).consecutive_failures =
      w1state.consecutive_failures + 1 :=
  claim1_circuit_breaker_lifecycle.1 100 "remix" "/remix" (some "boom") none w1state
    (by decide)

/-! ## Claim C2 -/

def c2state : SafetyState := { remix_history := [("P1", "")] }

/-- Counterexample to claim C2 as frozen: quantified over every key present
in remix_history with stored value v, the claim fails at the stored value
being the empty string. The source checks the stored value with Python
truthiness, so a key mapped to the empty string reads back as new: after
record_remix_success with an empty new id, check_idempotency returns
(is_new true, none) rather than (is_new false, the stored value). -/
theorem claim2_counterexample :
    dictGet c2state.remix_history "P1" = some "" ∧
    check_idempotency "remix" "P1" c2state = (true, none) ∧
    check_idempotency "remix" "P1" (record_remix_success "P1" "" ({} : SafetyState)) =
      (true, none) := by
  refine ⟨by decide, by decide, by decide⟩

/-- Claim C2 (amended: the stored value must be non-empty, because the source
tests it with Python truthiness): a key absent from remix_history checks as
new; a key present with a non-empty stored value v checks as
(is_new false, v); the same holds right after record_remix_success with a
non-empty value; and the result is unchanged by a daily rollover and by a
save and reload of the persisted state. -/
theorem claim2_idempotency_roundtrip :
    (∀ (s : SafetyState) (k : String), dictGet s.remix_history k = none →
        check_idempotency "remix" k s = (true, none)) ∧
    (∀ (s : SafetyState) (k v : String), dictGet s.remix_history k = some v → v ≠ "" →
        check_idempotency "remix" k s = (false, some v)) ∧
    (∀ (s : SafetyState) (k v : String), v ≠ "" →
        check_idempotency "remix" k (record_remix_success k v s) = (false, some v)) ∧
    (∀ (s : SafetyState) (k today : String),
        check_idempotency "remix" k (check_daily_reset today s).1 =
          check_idempotency "remix" k s) ∧
    (∀ (s : SafetyState) (k : String),
        check_idempotency "remix" k (load_state (some (save_state s))) =
          check_idempotency "remix" k s) := by
  refine ⟨?_, ?_, ?_, ?_, ?_⟩
  · intro s k h
    simp [check_idempotency, h]
  · intro s k v h hv
    simp [check_idempotency, h, hv]
  · intro s k v hv
    simp [check_idempotency, record_remix_success, dictGet_dictInsert, hv]
  · intro s k today
    have hh : (check_daily_reset today s).1.remix_history = s.remix_history := by
      unfold check_daily_reset
      by_cases h : s.last_reset_date ≠ today
      · rw [if_pos h]
      · rw [if_neg h]
    unfold check_idempotency
    rw [hh]
  · intro s k
    rfl

theorem claim2_witness :
    check_idempotency "remix" "P1" (record_remix_success "P1" "N1" ({} : SafetyState)) =
      (false, some "N1") :=
  claim2_idempotency_roundtrip.2.2.1 {} "P1" "N1" (by decide)

/-! ## Claim C5 -/

/-- Claim C5: daily rollover frame. When last_reset_date differs from today,
the rollover zeroes requests_today and remixes_today, clears request_log,
sets last_reset_date to today and persists, leaving every other field
(remix_history, consecutive_failures, circuit_breaker_until,
last_request_time) unchanged; when last_reset_date equals today it changes
nothing and does not persist. -/
theorem claim5_daily_rollover_frame :
    (∀ (today : String) (s : SafetyState), s.last_reset_date ≠ today →
        check_daily_reset today s =
          ({ s with requests_today := 0, remixes_today := 0,
                    last_reset_date := today, request_log := [] }, true)) ∧
    (∀ (today : String) (s : SafetyState), s.last_reset_date = today →
        check_daily_reset today s = (s, false)) := by
  constructor
  · intro today s h
    unfold check_daily_reset
    rw [if_pos h]
  · intro today s h
    unfold check_daily_reset
    rw [if_neg (by simpa using h)]

def w5entry : RequestLog :=
  { timestamp := 50, operation := "remix", endpoint := "/remix", success := true }

def w5state : SafetyState :=
  { requests_today := 7, remixes_today := 4, last_reset_date := "2025-01-01",
    request_log := [w5entry], remix_history := [("P1", "N1")],
    consecutive_failures := 1, circuit_breaker_until := some 900,
    last_request_time := some 60 }

theorem claim5_witness :
    check_daily_reset "2025-01-02" w5state =
      ({ w5state with requests_today := 0, remixes_today := 0,
                      last_reset_date := "2025-01-02", request_log := [] }, true) :=
  claim5_daily_rollover_frame.1 "2025-01-02" w5state (by decide)

/-! ## Claim C7 -/

/-- Claim C7: the retry policy is pure. should_retry is false once the
attempt count reaches MAX_RETRIES (2); it is false at every attempt count
whenever the lowercased error text contains one of the fixed non-retryable
markers (403, 401, 404, already remixed, supabase), in particular at
attempt 0 with the text 401 unauthorized; and the backoff delay is
min (2 to the attempt, 30) seconds, so the delay at attempt 3 is 8. -/
theorem claim7_retry_policy :
    (∀ (attempt : Nat) (error : Option String), MAX_RETRIES ≤ attempt →
        should_retry attempt error = false) ∧
    (∀ (attempt : Nat) (e p : String), p ∈ no_retry_errors →
        strContainsSub (strLower e) p = true →
        should_retry attempt (some e) = false) ∧
    should_retry 0 (some "401 unauthorized") = false ∧
    (∀ attempt : Nat, get_retry_delay attempt = min (2 ^ attempt) 30) ∧
    get_retry_delay 3 = 8 := by
  refine ⟨?_, ?_, by decide, fun attempt => rfl, by decide⟩
  · intro attempt error h
    simp [should_retry, h]
  · intro attempt e p hp hc
    by_cases ha : MAX_RETRIES ≤ attempt
    · simp [should_retry, ha]
    · have he : e ≠ "" := by
        intro hee
        rw [hee] at hc
        simp only [no_retry_errors, List.mem_cons, List.not_mem_nil, or_false] at hp
        rcases hp with rfl | rfl | rfl | rfl | rfl <;> exact absurd hc (by decide)
      have hany : no_retry_errors.any (fun q => strContainsSub (strLower e) q) = true :=
        List.any_eq_true.mpr ⟨p, hp, hc⟩
      simp [should_retry, ha, he, hany]

theorem claim7_witness :
    should_retry 2 (some "timeout") = false ∧
    should_retry 0 (some "Error 404 not found") = false :=
  ⟨claim7_retry_policy.1 2 (some "timeout") (by decide),
   claim7_retry_policy.2.1 0 "Error 404 not found" "404" (by decide) (by decide)⟩

/-! ## Claim C8 -/

/-- Claim C8: audit log bound. Every append adds the entry at the tail and
evicts from the head down to 100 entries exactly when the length exceeds
100 (the closed drop form); consequently appending 105 entries one at a time
to any starting log leaves exactly the 100 most recent entries, oldest
first. -/
theorem claim8_audit_log_bound :
    (∀ (l : List RequestLog) (e : RequestLog),
        log_append l e = (l ++ [e]).drop ((l ++ [e]).length - 100)) ∧
    (∀ (l es : List RequestLog), es.length = 105 →
        List.foldl log_append l es = es.drop 5) := by
  constructor
  · intro l e
    rw [log_append_eq_lastN]
    rfl
  · intro l es h
    match es, h with
    | e :: es, h =>
      rw [foldl_log_append]
      unfold lastN
      have e1 : (l ++ e :: es).length - 100 = l.length + 5 := by
        rw [List.length_append]
        omega
      rw [e1, ← List.drop_drop, List.drop_left]

def w8entry : RequestLog :=
  { timestamp := 1, operation := "probe", endpoint := "/me", success := false }

theorem claim8_witness :
    List.foldl log_append [] (List.replicate 105 w8entry) =
      (List.replicate 105 w8entry).drop 5 :=
  claim8_audit_log_bound.2 [] (List.replicate 105 w8entry) (by simp)

/-! ## Claims C3 and C4: more gate lemmas -/

theorem pre_check_cb_pass (now : Nat) (op : String) (pid : Option String) (skip : Bool)
    (conf : String) (s : SafetyState) (h : (check_circuit_breaker now s).1.1 = true) :
    pre_operation_check now op pid skip conf s =
      (gate_after_breaker op pid skip conf (check_circuit_breaker now s).2,
       (check_circuit_breaker now s).2) := by
  simp [pre_operation_check, h]

theorem check_idem_congr (op k : String) (s1 s2 : SafetyState)
    (h : s1.remix_history = s2.remix_history) :
    check_idempotency op k s1 = check_idempotency op k s2 := by
  unfold check_idempotency
  rw [h]

theorem gab_idem_deny (op : String) (pid : Option String) (skip : Bool) (conf : String)
    (s : SafetyState) (hdl : ¬ (op = "remix" ∧ MAX_REMIXES_PER_DAY ≤ s.remixes_today))
    (h2 : op = "remix" ∧ pyTruthy pid = true ∧
      (check_idempotency op (pid.getD "") s).1 = false) :
    gate_after_breaker op pid skip conf s =
      (false, already_reason ((check_idempotency op (pid.getD "") s).2.getD "")) := by
  simp only [gate_after_breaker, check_daily_limits]
  rw [if_neg hdl]
  simp only [if_true]
  rw [if_pos h2]

theorem gab_ne_daily (op : String) (pid : Option String) (skip : Bool) (conf : String)
    (s : SafetyState) (h : ¬ (op = "remix" ∧ MAX_REMIXES_PER_DAY ≤ s.remixes_today)) :
    (gate_after_breaker op pid skip conf s).2 ≠ daily_reason := by
  by_cases h2 : op = "remix" ∧ pyTruthy pid = true ∧
      (check_idempotency op (pid.getD "") s).1 = false
  · rw [gab_idem_deny op pid skip conf s h h2]
    exact already_ne_daily _
  · rw [gab_confirm op pid skip conf s h h2]
    unfold confirm_gate
    by_cases h3 : op = "remix" ∧ ¬ skip = true
    · rw [if_pos h3]
      by_cases h4 : strLower conf = "yes" ∨ strLower conf = "y"
      · rw [if_pos h4]; exact empty_ne_daily
      · rw [if_neg h4]; exact declined_ne_daily
    · rw [if_neg h3]; exact empty_ne_daily

/-- Claim C3: pre-check ordering and short-circuit. An active breaker denies
first with the breaker reason, leaving the state and all later checks
untouched; the rate-limit step only waits, so the decision never depends on
last_request_time; past the breaker, the daily quota denies next; past the
quota, the idempotency check denies a truthy remix key with the existing
result id in the reason; the soft warning never denies, so the decision
never depends on requests_today; and last, with everything else passing, a
required and unskipped confirmation with a non-affirmative answer denies
with User declined while a skipped confirmation allows. -/
theorem claim3_pre_check_ordering :
    (∀ (now t : Nat) (op : String) (pid : Option String) (skip : Bool) (conf : String)
        (s : SafetyState), s.circuit_breaker_until = some t → now < t →
        pre_operation_check now op pid skip conf s =
          ((false, breaker_reason (t - now)), s)) ∧
    (∀ (now : Nat) (op : String) (pid : Option String) (skip : Bool) (conf : String)
        (s : SafetyState) (lrt : Option Nat),
        (pre_operation_check now op pid skip conf { s with last_request_time := lrt }).1 =
          (pre_operation_check now op pid skip conf s).1) ∧
    (∀ (now : Nat) (pid : Option String) (skip : Bool) (conf : String) (s : SafetyState),
        (check_circuit_breaker now s).1.1 = true →
        MAX_REMIXES_PER_DAY ≤ s.remixes_today →
        (pre_operation_check now "remix" pid skip conf s).1 = (false, daily_reason)) ∧
    (∀ (now : Nat) (pid v : String) (skip : Bool) (conf : String) (s : SafetyState),
        (check_circuit_breaker now s).1.1 = true →
        s.remixes_today < MAX_REMIXES_PER_DAY →
        pid ≠ "" → dictGet s.remix_history pid = some v → v ≠ "" →
        (pre_operation_check now "remix" (some pid) skip conf s).1 =
          (false, already_reason v)) ∧
    (∀ (now : Nat) (op : String) (pid : Option String) (skip : Bool) (conf : String)
        (s : SafetyState) (n : Nat),
        (pre_operation_check now op pid skip conf { s with requests_today := n }).1 =
          (pre_operation_check now op pid skip conf s).1) ∧
    (∀ (now : Nat) (pid : Option String) (conf : String) (s : SafetyState),
        (check_circuit_breaker now s).1.1 = true →
        s.remixes_today < MAX_REMIXES_PER_DAY →
        (pyTruthy pid = false ∨ (check_idempotency "remix" (pid.getD "") s).1 = true) →
        strLower conf ≠ "yes" → strLower conf ≠ "y" →
        (pre_operation_check now "remix" pid false conf s).1 =
          (false, declined_reason)) ∧
    (∀ (now : Nat) (pid : Option String) (conf : String) (s : SafetyState),
        (check_circuit_breaker now s).1.1 = true →
        s.remixes_today < MAX_REMIXES_PER_DAY →
        (pyTruthy pid = false ∨ (check_idempotency "remix" (pid.getD "") s).1 = true) →
        (pre_operation_check now "remix" pid true conf s).1 = (true, "")) := by
  have hidless : ∀ (pid : Option String) (s : SafetyState),
      (pyTruthy pid = false ∨ (check_idempotency "remix" (pid.getD "") s).1 = true) →
      ∀ s2 : SafetyState, s2.remix_history = s.remix_history →
      ¬ ("remix" = "remix" ∧ pyTruthy pid = true ∧
          (check_idempotency "remix" (pid.getD "") s2).1 = false) := by
    intro pid s hid s2 hh hc
    rcases hid with h | h
    · exact absurd (h.symm.trans hc.2.1) (by decide)
    · rw [check_idem_congr "remix" (pid.getD "") s2 s hh] at hc
      exact absurd (h.symm.trans hc.2.2) (by decide)
  refine ⟨?_, ?_, ?_, ?_, ?_, ?_, ?_⟩
  · intro now t op pid skip conf s h h2
    exact pre_check_cb_active now t op pid skip conf s h h2
  · intro now op pid skip conf s lrt
    exact pre_check_decision_congr now op pid skip conf _ s rfl rfl rfl
  · intro now pid skip conf s hcb h20
    rw [pre_check_cb_pass now "remix" pid skip conf s hcb]
    exact gab_daily "remix" pid skip conf _ rfl
      (by rw [(cb_post_fields now s).1]; exact h20)
  · intro now pid v skip conf s hcb h20 hpid hget hv
    rw [pre_check_cb_pass now "remix" (some pid) skip conf s hcb]
    exact gab_already pid v skip conf _
      (by rw [(cb_post_fields now s).1]; exact Nat.not_le.mpr h20)
      (by rw [(cb_post_fields now s).2.1]; exact hget) hv hpid
  · intro now op pid skip conf s n
    exact pre_check_decision_congr now op pid skip conf _ s rfl rfl rfl
  · intro now pid conf s hcb h20 hid hy1 hy2
    rw [pre_check_cb_pass now "remix" pid false conf s hcb]
    have hdl : ¬ ("remix" = "remix" ∧
        MAX_REMIXES_PER_DAY ≤ (check_circuit_breaker now s).2.remixes_today) := by
      intro hx
      rw [(cb_post_fields now s).1] at hx
      exact absurd hx.2 (Nat.not_le.mpr h20)
    rw [gab_confirm "remix" pid false conf _ hdl
        (hidless pid s hid _ (cb_post_fields now s).2.1),
      cg_declined conf hy1 hy2]
  · intro now pid conf s hcb h20 hid
    rw [pre_check_cb_pass now "remix" pid true conf s hcb]
    have hdl : ¬ ("remix" = "remix" ∧
        MAX_REMIXES_PER_DAY ≤ (check_circuit_breaker now s).2.remixes_today) := by
      intro hx
      rw [(cb_post_fields now s).1] at hx
      exact absurd hx.2 (Nat.not_le.mpr h20)
    rw [gab_confirm "remix" pid true conf _ hdl
        (hidless pid s hid _ (cb_post_fields now s).2.1),
      cg_skip]

def w3state : SafetyState := { remixes_today := 3 }

theorem claim3_witness :
    (pre_operation_check 100 "remix" (some "P1") false "no" w3state).1 =
      (false, declined_reason) :=
  claim3_pre_check_ordering.2.2.2.2.2.1 100 (some "P1") "no" w3state (by decide)
    (by decide) (Or.inr (by decide)) (by decide) (by decide)

def c4state : SafetyState := { remixes_today := 20, circuit_breaker_until := some 1000 }

/-- Counterexample to claim C4 as frozen: quantified over every state, the
claim fails when the circuit breaker is active. With remixes_today at the
daily cap and the breaker cooldown still running, the remix pre-check is
denied with the circuit-breaker reason, not a daily-limit reason. -/
theorem claim4_counterexample :
    MAX_REMIXES_PER_DAY ≤ c4state.remixes_today ∧
    (pre_operation_check 0 "remix" (some "P1") true "yes" c4state).1.1 = false ∧
    (pre_operation_check 0 "remix" (some "P1") true "yes" c4state).1.2 =
      breaker_reason 1000 ∧
    (pre_operation_check 0 "remix" (some "P1") true "yes" c4state).1.2 ≠ daily_reason := by
  refine ⟨by decide, by decide, by decide, by decide⟩

/-- Claim C4 (amended: the first part holds for every state that passes the
circuit-breaker check, since an active breaker preempts the quota denial with
the breaker reason): past the breaker, a remix pre-check with remixes_today
at least 20 is denied with the daily-limit reason; with remixes_today 19 the
pre-check never carries the daily-limit reason; and operations other than
remix are never denied with the daily-limit reason. -/
theorem claim4_daily_quota_boundary :
    (∀ (now : Nat) (pid : Option String) (skip : Bool) (conf : String) (s : SafetyState),
        (check_circuit_breaker now s).1.1 = true →
        MAX_REMIXES_PER_DAY ≤ s.remixes_today →
        (pre_operation_check now "remix" pid skip conf s).1 = (false, daily_reason)) ∧
    (∀ (now : Nat) (pid : Option String) (skip : Bool) (conf : String) (s : SafetyState),
        s.remixes_today = 19 →
        (pre_operation_check now "remix" pid skip conf s).1.2 ≠ daily_reason) ∧
    (∀ (now : Nat) (op : String) (pid : Option String) (skip : Bool) (conf : String)
        (s : SafetyState), op ≠ "remix" →
        (pre_operation_check now op pid skip conf s).1.2 ≠ daily_reason) := by
  refine ⟨?_, ?_, ?_⟩
  · intro now pid skip conf s hcb h20
    rw [pre_check_cb_pass now "remix" pid skip conf s hcb]
    exact gab_daily "remix" pid skip conf _ rfl
      (by rw [(cb_post_fields now s).1]; exact h20)
  · intro now pid skip conf s h19
    rcases hc : s.circuit_breaker_until with _ | t
    · rw [pre_check_cb_none now "remix" pid skip conf s hc]
      exact gab_ne_daily "remix" pid skip conf s
        (fun hx => absurd hx.2 (by rw [h19]; decide))
    · by_cases hlt : now < t
      · rw [pre_check_cb_active now t "remix" pid skip conf s hc hlt]
        exact breaker_ne_daily _
      · rw [pre_check_cb_expired now t "remix" pid skip conf s hc (Nat.le_of_not_lt hlt)]
        refine gab_ne_daily "remix" pid skip conf _ ?_
        intro hx
        have hx2 : MAX_REMIXES_PER_DAY ≤ s.remixes_today := hx.2
        exact absurd hx2 (by rw [h19]; decide)
  · intro now op pid skip conf s hop
    rcases hc : s.circuit_breaker_until with _ | t
    · rw [pre_check_cb_none now op pid skip conf s hc]
      exact gab_ne_daily op pid skip conf s (fun hx => hop hx.1)
    · by_cases hlt : now < t
      · rw [pre_check_cb_active now t op pid skip conf s hc hlt]
        exact breaker_ne_daily _
      · rw [pre_check_cb_expired now t op pid skip conf s hc (Nat.le_of_not_lt hlt)]
        exact gab_ne_daily op pid skip conf _ (fun hx => hop hx.1)

def w4state : SafetyState := { remixes_today := 20 }

theorem claim4_witness :
    (pre_operation_check 0 "remix" (some "P1") true "yes" w4state).1 =
      (false, daily_reason) :=
  claim4_daily_quota_boundary.1 0 (some "P1") true "yes" w4state (by decide) (by decide)

/-! ## Claim C10 -/

/-- Claim C10 (implicit): the hourly ceiling is never enforced by the gate.
The pre-operation check never returns a rate-limit denial (its reason is
never of the rate-wait or hourly-limit form produced by check_rate_limit);
check_rate_limit is the function that denies at requests_today at least 60,
but the gate decision is independent of requests_today and
last_request_time, the only inputs of the rate limiter; so a state at or
past the hourly ceiling still passes the gate when the breaker, quota,
idempotency and confirmation checks permit. -/
theorem claim10_gate_never_rate_limits :
    (∀ (now : Nat) (op : String) (pid : Option String) (skip : Bool) (conf : String)
        (s : SafetyState) (w : Nat),
        (pre_operation_check now op pid skip conf s).1.2 ≠ rate_wait_reason w ∧
        (pre_operation_check now op pid skip conf s).1.2 ≠ hourly_reason) ∧
    (∀ (now : Nat) (s : SafetyState), MAX_REQUESTS_PER_HOUR ≤ s.requests_today →
        (check_rate_limit now s).1 = false) ∧
    (∀ (now : Nat) (op : String) (pid : Option String) (skip : Bool) (conf : String)
        (s : SafetyState) (n : Nat) (x : Option Nat),
        (pre_operation_check now op pid skip conf
            { s with requests_today := n, last_request_time := x }).1 =
          (pre_operation_check now op pid skip conf s).1) ∧
    (∀ (now : Nat) (pid conf : String) (s : SafetyState),
        MAX_REQUESTS_PER_HOUR ≤ s.requests_today →
        s.circuit_breaker_until = none →
        s.remixes_today < MAX_REMIXES_PER_DAY →
        dictGet s.remix_history pid = none →
        (pre_operation_check now "remix" (some pid) true conf s).1 = (true, "")) := by
  refine ⟨?_, ?_, ?_, ?_⟩
  · intro now op pid skip conf s w
    rcases gate_reason_cases now op pid skip conf s with h | ⟨d, h⟩ | h | ⟨v, h⟩ | h
    · rw [h]; exact ⟨empty_ne_rate w, empty_ne_hourly⟩
    · rw [h]; exact ⟨breaker_ne_rate d w, breaker_ne_hourly d⟩
    · rw [h]; exact ⟨daily_ne_rate w, daily_ne_hourly⟩
    · rw [h]; exact ⟨already_ne_rate v w, already_ne_hourly v⟩
    · rw [h]; exact ⟨declined_ne_rate w, declined_ne_hourly⟩
  · intro now s h
    unfold check_rate_limit
    cases s.last_request_time with
    | none => rw [if_pos h]
    | some lt =>
        dsimp only
        by_cases h2 : now - lt < MIN_REQUEST_INTERVAL_SECONDS
        · rw [if_pos h2]
        · rw [if_neg h2, if_pos h]
  · intro now op pid skip conf s n x
    exact pre_check_decision_congr now op pid skip conf _ s rfl rfl rfl
  · intro now pid conf s h60 hb h20 hget
    rw [pre_check_cb_none now "remix" (some pid) true conf s hb]
    have hdl : ¬ ("remix" = "remix" ∧ MAX_REMIXES_PER_DAY ≤ s.remixes_today) :=
      fun hx => absurd hx.2 (Nat.not_le.mpr h20)
    have hid : ¬ ("remix" = "remix" ∧ pyTruthy (some pid) = true ∧
        (check_idempotency "remix" ((some pid).getD "") s).1 = false) := by
      intro hx
      have h1 : (check_idempotency "remix" pid s).1 = true := by
        simp [check_idempotency, hget]
      exact absurd (h1.symm.trans hx.2.2) (by decide)
    rw [gab_confirm "remix" (some pid) true conf s hdl hid, cg_skip]

def w10state : SafetyState := { requests_today := 99 }

theorem claim10_witness :
    (pre_operation_check 100 "remix" (some "P1") true "x" w10state).1 = (true, "") :=
  claim10_gate_never_rate_limits.2.2.2 100 "P1" "x" w10state (by decide) rfl
    (by decide) rfl

/-! ## Claim C6 -/

def c6entry : RequestLog :=
  { timestamp := 10, operation := "probe", endpoint := "/me", success := true }

def c6state : SafetyState :=
  { requests_today := 7, remixes_today := 4, last_reset_date := "2025-01-01",
    request_log := [c6entry] }

/-- Counterexample to claim C6 as frozen: pre_operation_check performs no
rollover at all. On a state whose last_reset_date differs from today, a full
gate evaluation (which runs the breaker, quota, idempotency and confirmation
checks and allows) returns the state completely unchanged: the counters are
not zeroed, the log is not cleared and last_reset_date keeps its old value.
The rollover runs only at SafetyManager initialization. -/
theorem claim6_counterexample :
    c6state.last_reset_date ≠ "2025-01-02" ∧
    (pre_operation_check 100 "remix" (some "P1") true "x" c6state).1.1 = true ∧
    (pre_operation_check 100 "remix" (some "P1") true "x" c6state).2 = c6state ∧
    (pre_operation_check 100 "remix" (some "P1") true "x" c6state).2.requests_today = 7 ∧
    (pre_operation_check 100 "remix" (some "P1") true "x" c6state).2.last_reset_date =
      "2025-01-01" := by
  refine ⟨by decide, by decide, by decide, by decide, by decide⟩

/-- Claim C6 (amended: the rollover runs before any gate check of a session
because it runs at SafetyManager initialization, i.e. at state load, not
inside pre_operation_check): initialization on a loaded state with
last_reset_date different from today zeroes the daily counters, clears the
request log and sets last_reset_date to today while keeping every other
field; initialization on the current day returns the state unchanged; and
pre_operation_check itself never performs the rollover, leaving
last_reset_date, requests_today, remixes_today and request_log unchanged. -/
theorem claim6_rollover_at_load :
    (∀ (today : String) (s : SafetyState), s.last_reset_date ≠ today →
        safety_manager_init today (some s) =
          { s with requests_today := 0, remixes_today := 0,
                   last_reset_date := today, request_log := [] }) ∧
    (∀ (today : String) (s : SafetyState), s.last_reset_date = today →
        safety_manager_init today (some s) = s) ∧
    (∀ (now : Nat) (op : String) (pid : Option String) (skip : Bool) (conf : String)
        (s : SafetyState),
        (pre_operation_check now op pid skip conf s).2.last_reset_date =
            s.last_reset_date ∧
        (pre_operation_check now op pid skip conf s).2.requests_today =
            s.requests_today ∧
        (pre_operation_check now op pid skip conf s).2.remixes_today =
            s.remixes_today ∧
        (pre_operation_check now op pid skip conf s).2.request_log = s.request_log) := by
  refine ⟨?_, ?_, ?_⟩
  · intro today s h
    unfold safety_manager_init load_state check_daily_reset
    rw [if_pos h]
  · intro today s h
    unfold safety_manager_init load_state check_daily_reset
    rw [if_neg (by simpa using h)]
  · intro now op pid skip conf s
    rw [pre_check_state now op pid skip conf s]
    exact ⟨(cb_post_fields now s).2.2.2.2.1, (cb_post_fields now s).2.2.1,
           (cb_post_fields now s).1, (cb_post_fields now s).2.2.2.1⟩

theorem claim6_witness :
    safety_manager_init "2025-01-02" (some c6state) =
      { c6state with requests_today := 0, remixes_today := 0,
                     last_reset_date := "2025-01-02", request_log := [] } :=
  claim6_rollover_at_load.1 "2025-01-02" c6state (by decide)

/-! ## Claim C9 -/

theorem op_blocked_contains (r : String) :
    strContainsSub ("Operation blocked: " ++ r) "Operation blocked" = true := by
  unfold strContainsSub
  rw [String.data_append]
  have h2 : ("Operation blocked: " : String).data =
      ("Operation blocked" : String).data ++ (": " : String).data := by decide
  rw [h2, List.append_assoc]
  exact containsSub_self_append _ _

theorem remix_project_blocked (now : Nat) (pid : String) (ih skip : Bool) (conf : String)
    (t : TransportOutcome) (s : SafetyState)
    (h : (pre_operation_check now "remix" (some pid) skip conf s).1.1 = false) :
    remix_project now pid ih skip conf t s =
      (({ success := false,
          error := some ("Operation blocked: " ++
            (pre_operation_check now "remix" (some pid) skip conf s).1.2) } : RemixResult),
       (pre_operation_check now "remix" (some pid) skip conf s).2, 0) := by
  have hcond : ¬ ((pre_operation_check now "remix" (some pid) skip conf s).1.1 = true) := by
    rw [h]
    exact Bool.false_ne_true
  simp only [remix_project]
  rw [if_neg hcond]

theorem get_project_calls (now : Nat) (pid : String) (t : TransportOutcome)
    (s : SafetyState) : (get_project now pid t s).2.2 = 1 := by
  unfold get_project api_request
  cases t with
  | ok r =>
      dsimp only
      by_cases h : r.status_code = 200
      · rw [if_pos h]
      · rw [if_neg h]
  | exn m => rfl

theorem create_remix_blocked (now : Nat) (pid : String) (ih skip : Bool) (conf : String)
    (tv tr : TransportOutcome) (s : SafetyState)
    (h : (pre_operation_check now "remix" (some pid) skip conf
        (get_project now pid tv s).2.1).1.1 = false) :
    (create_remix now pid ih skip conf none tv tr s).1 = none ∧
    (create_remix now pid ih skip conf none tv tr s).2.2 = 1 := by
  have hrp := remix_project_blocked now pid ih skip conf tr (get_project now pid tv s).2.1 h
  constructor
  · simp only [create_remix, hrp, op_blocked_contains, if_true]
  · simp only [create_remix, hrp, op_blocked_contains, if_true]
    rw [get_project_calls]

/-- Claim C9 (amended: the remix operation itself issues zero transport calls
on denial, but the surrounding create_remix workflow performs one
source-verification transport call, get_project, before the pre-check, so a
denied workflow run still issues that single call and records it): when the
pre-operation check denies, remix_project returns the blocked result carrying
the reported reason with zero transport calls, and the pre-check leaves
requests_today, the audit log and the remix ledger unchanged; the workflow
around it returns none on a blocked result having issued exactly the one
verification call. -/
theorem claim9_denial_blocks_before_transport :
    (∀ (now : Nat) (pid : String) (ih skip : Bool) (conf : String) (t : TransportOutcome)
        (s : SafetyState),
        (pre_operation_check now "remix" (some pid) skip conf s).1.1 = false →
        remix_project now pid ih skip conf t s =
          (({ success := false,
              error := some ("Operation blocked: " ++
                (pre_operation_check now "remix" (some pid) skip conf s).1.2) } :
            RemixResult),
           (pre_operation_check now "remix" (some pid) skip conf s).2, 0)) ∧
    (∀ (now : Nat) (op : String) (pid : Option String) (skip : Bool) (conf : String)
        (s : SafetyState),
        (pre_operation_check now op pid skip conf s).2.requests_today =
            s.requests_today ∧
        (pre_operation_check now op pid skip conf s).2.request_log = s.request_log ∧
        (pre_operation_check now op pid skip conf s).2.remix_history =
            s.remix_history) ∧
    (∀ (now : Nat) (pid : String) (ih skip : Bool) (conf : String)
        (tv tr : TransportOutcome) (s : SafetyState),
        (pre_operation_check now "remix" (some pid) skip conf
            (get_project now pid tv s).2.1).1.1 = false →
        (create_remix now pid ih skip conf none tv tr s).1 = none ∧
        (create_remix now pid ih skip conf none tv tr s).2.2 = 1) := by
  refine ⟨remix_project_blocked, ?_, create_remix_blocked⟩
  intro now op pid skip conf s
  rw [pre_check_state now op pid skip conf s]
  exact ⟨(cb_post_fields now s).2.2.1, (cb_post_fields now s).2.2.2.1,
         (cb_post_fields now s).2.1⟩

def c9state : SafetyState :=
  { requests_today := 5, remix_history := [("P1", "N1")],
    last_reset_date := "2025-01-01" }

def c9verify : TransportOutcome :=
  TransportOutcome.ok { status_code := 404, text := "not found" }

def c9run : Option RemixWorkflowResult × SafetyState × Nat :=
  create_remix 100 "P1" false true "yes" none c9verify
    (TransportOutcome.exn "unused") c9state

/-- Counterexample to claim C9 as frozen: an immediate second remix of P1 via
the create_remix workflow is denied by the pre-operation check with a reason
containing Already remixed N1, yet the run issues one transport call (the
source-verification request of get_project, made before the pre-check) and
that call increments requests_today and appends to the audit log, so the
attempt does not leave them unchanged and does not issue zero calls. -/
theorem claim9_counterexample :
    (pre_operation_check 100 "remix" (some "P1") true "yes"
        (get_project 100 "P1" c9verify c9state).2.1).1 =
      (false, "Already remixed: N1") ∧
    c9run.1 = none ∧
    c9run.2.2 = 1 ∧
    c9run.2.1.requests_today = 6 ∧
    c9run.2.1.request_log.length = 1 := by
  refine ⟨by decide, by decide, by decide, by decide, by decide⟩

def w9state : SafetyState := { remixes_today := 20 }

theorem claim9_witness :
    remix_project 7 "P1" false true "ok" (TransportOutcome.exn "unused") w9state =
      (({ success := false,
          error := some ("Operation blocked: " ++
            (pre_operation_check 7 "remix" (some "P1") true "ok" w9state).1.2) } :
        RemixResult),
       (pre_operation_check 7 "remix" (some "P1") true "ok" w9state).2, 0) :=
  claim9_denial_blocks_before_transport.1 7 "P1" false true "ok"
    (TransportOutcome.exn "unused") w9state (by decide)

end Lovable
